import Mathlib

set_option linter.unusedVariables false

/-!
# Verification of `crates/arborium-sysroot/wasm-sysroot/stdio.h`

A shallow embedding of the stub `stdio.h` header shipped in the arborium
wasm sysroot.  The header consists only of static declarations:

* `#define NULL ((void*)0)`
* `typedef unsigned long size_t;`
* `typedef struct {} FILE;`
* `extern FILE *stderr;`
* a real declaration `int fprintf(FILE*, const char*, ...);`
* function-like substitutions `snprintf`, `vsnprintf`, `fputs`, `fputc`,
  `fdopen`, `fclose` expanding to `0` or `NULL`
* an `_STDIO_H` include guard.

We embed the C type grammar, a small C expression language with an
evaluator carrying a mutable environment and an I/O trace (so that
"arguments are never evaluated" and "no I/O is performed" are expressible),
the preprocessing substitutions as functions on expression syntax, the
declaration list of the header, a link-resolution model, and a model of
repeated inclusion under the include guard.
-/

namespace Stdio

/-- C types occurring in the header: `int`, `unsigned long`, `void`,
`char`, `const`-qualified types, structure types (identified by the list
of their field names), and pointer types. -/
inductive CType where
  | intT
  | unsignedLongT
  | voidT
  | charT
  | constT (t : CType)
  | structT (fields : List String)
  | ptr (pointee : CType)
deriving DecidableEq, Repr

/-- `typedef struct {} FILE;` — the opaque stream handle is an empty
structure type with no fields. -/
def FILE : CType := .structT []

/-- `typedef unsigned long size_t;` -/
def size_t : CType := .unsignedLongT

/-- Runtime values of the expression language: integers, the null
pointer, and non-null addresses. -/
inductive CVal where
  | int (n : Int)
  | nullPtr
  | addr (a : Nat)
deriving DecidableEq, Repr

/-- A value of the empty structure type `FILE` (`struct {}` has no
members, so its values carry no data). -/
structure FILEval where

/-- I/O events an expression may emit during evaluation.  The stub header
itself contains no I/O primitive; the constructor exists so that client
argument expressions *could* perform I/O, making "the substitution never
executes I/O" a non-vacuous statement. -/
inductive IOEvent where
  | wrote (stream : CVal) (byte : CVal)
deriving DecidableEq, Repr

/-- C expressions sufficient for the claims: integer literals, the cast
`(void*)e` used by `NULL`, variables, assignment (a side effect), the
comma operator, equality comparison `==`, the conditional, and a
hypothetical real stream-write primitive emitting an `IOEvent`. -/
inductive CExpr where
  | lit (n : Int)
  | castVoidPtr (e : CExpr)
  | var (x : String)
  | assign (x : String) (e : CExpr)
  | seqE (a b : CExpr)
  | eqE (a b : CExpr)
  | iteE (c t e : CExpr)
  | ioWrite (stream byte : CExpr)
deriving DecidableEq, Repr

/-- Variable environments. -/
def Env : Type := String → CVal

/-- C equality (`==`) on values: defined between two integers and between
two pointer values; a null pointer equals only a null pointer. -/
def ceqVal : CVal → CVal → Option Int
  | .int a, .int b => some (if a = b then 1 else 0)
  | .nullPtr, .nullPtr => some 1
  | .nullPtr, .addr _ => some 0
  | .addr _, .nullPtr => some 0
  | .addr a, .addr b => some (if a = b then 1 else 0)
  | _, _ => none

/-- Big-step evaluator: an expression, run in an environment, may produce
a value, an updated environment, and the list of I/O events it emitted.
`none` models evaluation that is undefined in our fragment. -/
def eval : CExpr → Env → Option (CVal × Env × List IOEvent)
  | .lit n, ρ => some (.int n, ρ, [])
  | .castVoidPtr e, ρ =>
    match eval e ρ with
    | some (.int 0, ρ1, t) => some (.nullPtr, ρ1, t)
    | some (.nullPtr, ρ1, t) => some (.nullPtr, ρ1, t)
    | some (.addr a, ρ1, t) => some (.addr a, ρ1, t)
    | _ => none
  | .var x, ρ => some (ρ x, ρ, [])
  | .assign x e, ρ =>
    match eval e ρ with
    | some (v, ρ1, t) => some (v, fun y => if y = x then v else ρ1 y, t)
    | none => none
  | .seqE a b, ρ =>
    match eval a ρ with
    | some (_, ρ1, t1) =>
      match eval b ρ1 with
      | some (v, ρ2, t2) => some (v, ρ2, t1 ++ t2)
      | none => none
    | none => none
  | .eqE a b, ρ =>
    match eval a ρ with
    | some (va, ρ1, t1) =>
      match eval b ρ1 with
      | some (vb, ρ2, t2) =>
        match ceqVal va vb with
        | some n => some (.int n, ρ2, t1 ++ t2)
        | none => none
      | none => none
    | none => none
  | .iteE c t e, ρ =>
    match eval c ρ with
    | some (.int n, ρ1, t1) =>
      if n = 0 then
        match eval e ρ1 with
        | some (v, ρ2, t2) => some (v, ρ2, t1 ++ t2)
        | none => none
      else
        match eval t ρ1 with
        | some (v, ρ2, t2) => some (v, ρ2, t1 ++ t2)
        | none => none
    | some (.nullPtr, ρ1, t1) =>
      match eval e ρ1 with
      | some (v, ρ2, t2) => some (v, ρ2, t1 ++ t2)
      | none => none
    | some (.addr _, ρ1, t1) =>
      match eval t ρ1 with
      | some (v, ρ2, t2) => some (v, ρ2, t1 ++ t2)
      | none => none
    | none => none
  | .ioWrite s c, ρ =>
    match eval s ρ with
    | some (vs, ρ1, t1) =>
      match eval c ρ1 with
      | some (vc, ρ2, t2) => some (vc, ρ2, t1 ++ t2 ++ [.wrote vs vc])
      | none => none
    | none => none

/-- Compile-time constant-expression evaluation: literals, the null
pointer constant `(void*)0`, and `==` between constants. -/
def constEval : CExpr → Option CVal
  | .lit n => some (.int n)
  | .castVoidPtr e =>
    match constEval e with
    | some (.int 0) => some .nullPtr
    | _ => none
  | .eqE a b =>
    match constEval a, constEval b with
    | some va, some vb => (ceqVal va vb).map .int
    | _, _ => none
  | _ => none

/-- An expression is a compile-time constant expression when constant
evaluation succeeds on it. -/
def isConstExpr (e : CExpr) : Bool := (constEval e).isSome

/-- Compile-time type of the constant expressions we need:
an integer literal has type `int`, `(void*)e` has type `void*`. -/
def typeOf : CExpr → Option CType
  | .lit _ => some .intT
  | .castVoidPtr _ => some (.ptr .voidT)
  | _ => none

/-- Whether a type is a pointer type. -/
def isPtr : CType → Bool
  | .ptr _ => true
  | _ => false

/-- Assignment compatibility (target accepts source): identical types,
and `void*` converts to and from every pointer type. -/
def assignCompatible (target src : CType) : Bool :=
  decide (target = src)
    || (isPtr target && decide (src = .ptr .voidT))
    || (decide (target = .ptr .voidT) && isPtr src)

/-- `#define NULL ((void*)0)` -/
def NULL : CExpr := .castVoidPtr (.lit 0)

/-- `#define snprintf(str, size, format, ...) 0` — variadic substitution;
the trailing arguments are received as a list and discarded. -/
def snprintf (str size format : CExpr) (varargs : List CExpr) : CExpr := .lit 0

/-- `#define vsnprintf(str, size, format, ap) 0` -/
def vsnprintf (str size format ap : CExpr) : CExpr := .lit 0

/-- `#define fputs(s, stream) 0` -/
def fputs (s stream : CExpr) : CExpr := .lit 0

/-- `#define fputc(c, stream) 0` -/
def fputc (c stream : CExpr) : CExpr := .lit 0

/-- `#define fdopen(fd, mode) NULL` -/
def fdopen (fd mode : CExpr) : CExpr := NULL

/-- `#define fclose(stream) 0` -/
def fclose (stream : CExpr) : CExpr := .lit 0

/-- The declarations a header may contribute to a translation unit:
object-like substitutions, function-like substitutions (with a `variadic`
flag for a trailing `...` parameter), `typedef`s, `extern` variable
declarations, and function declarations (`hasBody` records whether a
definition accompanies the declaration — in a header it never does). -/
inductive Decl where
  | defineObj (name : String) (body : CExpr)
  | defineFun (name : String) (params : List String) (variadic : Bool) (body : CExpr)
  | typedefD (name : String) (ty : CType)
  | externVar (name : String) (ty : CType)
  | funDecl (name : String) (params : List CType) (variadic : Bool) (ret : CType) (hasBody : Bool)
deriving DecidableEq, Repr

/-- The name a declaration introduces. -/
def Decl.name : Decl → String
  | .defineObj n _ => n
  | .defineFun n _ _ _ => n
  | .typedefD n _ => n
  | .externVar n _ => n
  | .funDecl n _ _ _ _ => n

/-- The body of `stdio.h` (between the include guard), transcribed
declaration by declaration from the source. -/
def stdioDecls : List Decl :=
  [ .defineObj "NULL" NULL,
    .typedefD "size_t" .unsignedLongT,
    .typedefD "FILE" (.structT []),
    .externVar "stderr" (.ptr FILE),
    .funDecl "fprintf" [.ptr FILE, .ptr (.constT .charT)] true .intT false,
    .defineFun "snprintf" ["str", "size", "format"] true (.lit 0),
    .defineFun "vsnprintf" ["str", "size", "format", "ap"] false (.lit 0),
    .defineFun "fputs" ["s", "stream"] false (.lit 0),
    .defineFun "fputc" ["c", "stream"] false (.lit 0),
    .defineFun "fdopen" ["fd", "mode"] false NULL,
    .defineFun "fclose" ["stream"] false (.lit 0) ]

/-- Link-time symbols defined (not merely declared) by a declaration
list: only function declarations carrying a body. -/
def definedSymbols (ds : List Decl) : List Decl :=
  ds.filter fun d =>
    match d with
    | .funDecl _ _ _ _ true => true
    | _ => false

/-- All declarations of a given name in a declaration list. -/
def declsOf (ds : List Decl) (n : String) : List Decl :=
  ds.filter fun d => decide (d.name = n)

/-- Whether a call to name `n` compiles in a translation unit that
included `ds`: some function-like substitution or function declaration of
that name is in scope. -/
def callCompiles (ds : List Decl) (n : String) : Bool :=
  ds.any fun d =>
    match d with
    | .defineFun m _ _ _ => decide (m = n)
    | .funDecl m _ _ _ _ => decide (m = n)
    | _ => false

/-- Link-time symbol references a call to name `n` leaves behind: a
function-like substitution is expanded away and references nothing; a
bodiless function declaration leaves a reference to its symbol. -/
def callRefs (ds : List Decl) (n : String) : List String :=
  match ds.find? (fun d => decide (d.name = n)) with
  | some (.funDecl m _ _ _ false) => [m]
  | _ => []

/-- The references of `refs` that the definitions `defs` fail to
resolve. -/
def unresolvedSyms (refs defs : List String) : List String :=
  refs.filter fun r => ¬ defs.contains r

/-- Linking succeeds when every reference is resolved. -/
def linkOk (refs defs : List String) : Bool :=
  (unresolvedSyms refs defs).isEmpty

/-- Member access `e.f` on a value of type `t` is well-typed exactly when
`t` is a structure type with a field named `f`. -/
def memberOk : CType → String → Bool
  | .structT fs, f => fs.contains f
  | _, _ => false

/-- Modelled from the spec: the target ABI widths, which live in the
surrounding sysroot/toolchain configuration rather than under `src/`.
The header is the wasm32 sysroot header ("width matches target address
space"); on wasm32 `unsigned long` and pointers are both 32 bits wide. -/
def widthOf : CType → Nat
  | .intT => 32
  | .unsignedLongT => 32
  | .voidT => 0
  | .charT => 8
  | .constT t => widthOf t
  | .structT _ => 0
  | .ptr _ => 32

/-- Modelled from the spec: the pointer/address width of the wasm32
target the sysroot serves. -/
def targetPointerWidth : Nat := 32

/-- Whether a C integer type is unsigned. -/
def isUnsignedTy : CType → Bool
  | .unsignedLongT => true
  | _ => false

/-- Least value representable in a C integer type (two's complement for
signed types, zero for unsigned ones). -/
def minValOf (t : CType) : Int :=
  if isUnsignedTy t then 0 else -(2 ^ (widthOf t - 1))

/-- Greatest value representable in a C integer type. -/
def maxValOf (t : CType) : Int :=
  if isUnsignedTy t then 2 ^ widthOf t - 1 else 2 ^ (widthOf t - 1) - 1

/-- `v` is representable in the C integer type `t`. -/
def inRange (t : CType) (v : Int) : Prop :=
  minValOf t ≤ v ∧ v ≤ maxValOf t

instance (t : CType) (v : Int) : Decidable (inRange t v) := by
  unfold inRange; infer_instance

/-- Preprocessing state across repeated inclusions of the header: whether
the `_STDIO_H` guard token is defined, and the declarations contributed
so far to the translation unit. -/
structure PPState where
  guardDefined : Bool
  decls : List Decl
deriving DecidableEq, Repr

/-- Incoming declarations clash when one reuses a name the translation
unit already declared. -/
def hasRedefinition (old incoming : List Decl) : Bool :=
  incoming.any fun d => (old.map Decl.name).contains d.name

/-- One inclusion of `stdio.h`: `#ifndef _STDIO_H` skips the body when
the guard is already defined; otherwise `#define _STDIO_H` is recorded
and the body's declarations are contributed, failing (`none`) on a
redefinition. -/
def includeStdioOnce (s : PPState) : Option PPState :=
  if s.guardDefined then some s
  else if hasRedefinition s.decls stdioDecls then none
  else some ⟨true, s.decls ++ stdioDecls⟩

/-- `n` successive inclusions of `stdio.h` into an initially empty
translation unit. -/
def includeStdioN : Nat → Option PPState
  | 0 => some ⟨false, []⟩
  | n + 1 => (includeStdioN n).bind includeStdioOnce

/-- C1: for every argument list, the `snprintf` and `vsnprintf`
substitutions expand to the integer literal `0`, a compile-time constant
expression of value zero, and evaluating the expansion in any environment
returns `0` without touching the environment or emitting I/O — so no
argument is ever evaluated. -/
theorem snprintf_vsnprintf_expand_to_zero :
    ∀ (str size format ap : CExpr) (varargs : List CExpr),
      snprintf str size format varargs = .lit 0
      ∧ vsnprintf str size format ap = .lit 0
      ∧ isConstExpr (snprintf str size format varargs) = true
      ∧ isConstExpr (vsnprintf str size format ap) = true
      ∧ constEval (snprintf str size format varargs) = some (.int 0)
      ∧ constEval (vsnprintf str size format ap) = some (.int 0)
      ∧ ∀ ρ : Env,
          eval (snprintf str size format varargs) ρ = some (.int 0, ρ, [])
          ∧ eval (vsnprintf str size format ap) ρ = some (.int 0, ρ, []) :=
  fun _ _ _ _ _ => ⟨rfl, rfl, rfl, rfl, rfl, rfl, fun _ => ⟨rfl, rfl⟩⟩

/-- C2: for every pair of argument lists, the `fputs` and `fputc`
substitutions expand to the same expression, the literal `0`; evaluating
the expansion in any environment yields `0`, leaves the environment
unchanged, and emits no I/O event — result and program state are
independent of all arguments, including the target stream. -/
theorem fputs_fputc_argument_independent :
    ∀ (s stream c stream2 s2 stream3 c2 stream4 : CExpr),
      fputs s stream = fputs s2 stream3
      ∧ fputc c stream2 = fputc c2 stream4
      ∧ fputs s stream = .lit 0
      ∧ fputc c stream2 = .lit 0
      ∧ ∀ ρ : Env,
          eval (fputs s stream) ρ = some (.int 0, ρ, [])
          ∧ eval (fputc c stream2) ρ = some (.int 0, ρ, []) :=
  fun _ _ _ _ _ _ _ _ => ⟨rfl, rfl, rfl, rfl, fun _ => ⟨rfl, rfl⟩⟩

/-- C3: for every argument list, `fdopen` expands to the `NULL` sentinel
and `fclose` to the literal `0`; evaluating either expansion in any
environment leaves the environment unchanged and emits no I/O event, so
neither evaluates its arguments nor performs any stateful behavior. -/
theorem fdopen_fclose_stateless_stubs :
    ∀ (fd mode stream : CExpr),
      fdopen fd mode = NULL
      ∧ fclose stream = .lit 0
      ∧ ∀ ρ : Env,
          eval (fdopen fd mode) ρ = some (.nullPtr, ρ, [])
          ∧ eval (fclose stream) ρ = some (.int 0, ρ, []) :=
  fun _ _ _ => ⟨rfl, rfl, fun _ => ⟨rfl, rfl⟩⟩

/-- C4: `fprintf` is the one genuine external function declaration — it
is variadic, takes `FILE*` then `const char*`, carries no body, and the
header defines no link-time symbol at all; a call to it compiles, and any
link whose definitions omit `fprintf` fails with exactly that symbol
unresolved. -/
theorem fprintf_extern_decl (defs : List String) (h : "fprintf" ∉ defs) :
    declsOf stdioDecls "fprintf" =
      [.funDecl "fprintf" [.ptr FILE, .ptr (.constT .charT)] true .intT false]
    ∧ definedSymbols stdioDecls = []
    ∧ callCompiles stdioDecls "fprintf" = true
    ∧ unresolvedSyms (callRefs stdioDecls "fprintf") defs = ["fprintf"]
    ∧ linkOk (callRefs stdioDecls "fprintf") defs = false := by
  have hc : defs.contains "fprintf" = false := by
    simpa using h
  refine ⟨by decide, by decide, by decide, ?_, ?_⟩
  · show List.filter _ ["fprintf"] = ["fprintf"]
    simp [hc, h]
  · show (List.filter _ ["fprintf"]).isEmpty = false
    simp [hc, h]

/-- Witness for C4: linking with an empty definition list leaves
`fprintf` unresolved. -/
theorem fprintf_extern_decl_witness :
    declsOf stdioDecls "fprintf" =
      [.funDecl "fprintf" [.ptr FILE, .ptr (.constT .charT)] true .intT false]
    ∧ definedSymbols stdioDecls = []
    ∧ callCompiles stdioDecls "fprintf" = true
    ∧ unresolvedSyms (callRefs stdioDecls "fprintf") [] = ["fprintf"]
    ∧ linkOk (callRefs stdioDecls "fprintf") [] = false :=
  fprintf_extern_decl [] (by decide)

/-- C5: the header contains exactly one declaration named `stderr`, an
`extern` variable of type `FILE*` (pointer to the opaque stream type),
and the header defines no link-time symbol, so storage for `stderr` must
come from elsewhere. -/
theorem stderr_single_extern_decl :
    declsOf stdioDecls "stderr" = [.externVar "stderr" (.ptr FILE)]
    ∧ (declsOf stdioDecls "stderr").length = 1
    ∧ definedSymbols stdioDecls = [] := by decide

/-- C6: `FILE` is the empty structure type: it has no fields, member
access on it is ill-typed for every field name, and any two values of the
type are equal (indistinguishable). -/
theorem FILE_opaque_empty :
    FILE = .structT []
    ∧ (∀ f : String, memberOk FILE f = false)
    ∧ (∀ a b : FILEval, a = b) :=
  ⟨rfl, fun _ => rfl, fun a b => by cases a; cases b; rfl⟩

/-- C7: `NULL` is the typed constant `(void*)0`: its type `void*` is
assignment-compatible with every pointer type (in particular `FILE*`),
`NULL == NULL` is the constant `1`, and for all arguments `fdopen`
expands to `NULL` itself, so `fdopen(x, y) == NULL` is also the constant
`1`. -/
theorem NULL_sentinel_compatible_and_reflexive :
    typeOf NULL = some (.ptr .voidT)
    ∧ (∀ t : CType, assignCompatible (.ptr t) (.ptr .voidT) = true)
    ∧ constEval (.eqE NULL NULL) = some (.int 1)
    ∧ ∀ x y : CExpr,
        fdopen x y = NULL
        ∧ constEval (.eqE (fdopen x y) NULL) = some (.int 1) := by
  refine ⟨rfl, ?_, rfl, fun x y => ⟨rfl, rfl⟩⟩
  intro t
  simp [assignCompatible, isPtr]

/-- C8: `size_t` is `unsigned long`, an unsigned type every representable
value of which is non-negative, and its width equals the pointer width of
the wasm32 target. -/
theorem size_t_unsigned_pointer_width :
    size_t = .unsignedLongT
    ∧ isUnsignedTy size_t = true
    ∧ (∀ v : Int, inRange size_t v → 0 ≤ v)
    ∧ widthOf size_t = targetPointerWidth
    ∧ widthOf (.ptr FILE) = targetPointerWidth := by
  refine ⟨rfl, rfl, ?_, rfl, rfl⟩
  intro v hv
  have h0 : minValOf size_t = 0 := rfl
  exact h0 ▸ hv.1

/-- Witness for C8: the value `42` is representable in `size_t` and is
non-negative. -/
theorem size_t_unsigned_pointer_width_witness :
    inRange size_t 42 ∧ (0 : Int) ≤ 42 :=
  ⟨by decide, size_t_unsigned_pointer_width.2.2.1 42 (by decide)⟩

/-- C9: for every argument pair, `fdopen` expands to `NULL`, the
conventional stream-open failure value; comparing the result against the
sentinel yields `1` in every environment, a conditional testing that
comparison always runs its first (failure) branch, and `fclose` applied
to the result is the constant `0` (success). -/
theorem fdopen_always_yields_failure :
    ∀ (fd mode tBr eBr : CExpr) (ρ : Env),
      fdopen fd mode = NULL
      ∧ eval (.eqE (fdopen fd mode) NULL) ρ = some (.int 1, ρ, [])
      ∧ eval (.iteE (.eqE (fdopen fd mode) NULL) tBr eBr) ρ = eval tBr ρ
      ∧ fclose (fdopen fd mode) = .lit 0
      ∧ constEval (fclose (fdopen fd mode)) = some (.int 0) := by
  intro fd mode tBr eBr ρ
  refine ⟨rfl, rfl, ?_, rfl, rfl⟩
  cases h : eval tBr ρ with
  | none => simp [eval, ceqVal, h]
  | some r =>
    obtain ⟨v, ρ2, t2⟩ := r
    simp [eval, ceqVal, h]

/-- C10: inclusion of `stdio.h` is idempotent: for every positive number
of inclusions the translation unit ends with the guard defined and
exactly the declarations of a single inclusion, with no redefinition
error. -/
theorem include_guard_idempotent (n : Nat) (h : 1 ≤ n) :
    includeStdioN n = some ⟨true, stdioDecls⟩
    ∧ includeStdioN n = includeStdioN 1 := by
  have key : ∀ m : Nat, includeStdioN (m + 1) = some ⟨true, stdioDecls⟩ := by
    intro m
    induction m with
    | zero => decide
    | succ k ih =>
      show (includeStdioN (k + 1)).bind includeStdioOnce = _
      rw [ih]
      rfl
  obtain ⟨m, rfl⟩ := Nat.exists_eq_add_of_le h
  constructor
  · rw [Nat.add_comm]
    exact key m
  · rw [Nat.add_comm, key m, key 0]

/-- Witness for C10: three inclusions contribute exactly the
declarations of one. -/
theorem include_guard_idempotent_witness :
    includeStdioN 3 = some ⟨true, stdioDecls⟩
    ∧ includeStdioN 3 = includeStdioN 1 :=
  include_guard_idempotent 3 (by decide)

end Stdio
